import Mathlib

/-!
Verification of the Arke preprocessing orchestrator.

Shallow embedding of the batch-preprocessing Durable Object and its two
phases (`src/batch-do.ts`, `src/phases/tiff-conversion.ts`,
`src/phases/image-processing.ts`, `src/types/state.ts`).  Timestamps are
modelled as milliseconds since epoch (`Nat`); JavaScript `Record<string, Task>`
objects are modelled as association lists in insertion order; remote calls
(Fly machine spawning, finalization delivery) are modelled by oracles giving
their outcomes; every mutating Durable Object operation is modelled as a pure
function from the storage state and the oracles to an ordered list of storage
effects (state puts, alarm sets and deletes).
-/

namespace Arke

/-- The `BatchStatus` from `src/types/state.ts`. -/
inductive BatchStatus where
  | TIFF_CONVERSION
  | IMAGE_PROCESSING
  | DONE
  | ERROR
deriving DecidableEq, Repr

/-- Task lifecycle status from `src/types/state.ts` (`Task.status`). -/
inductive TaskStatus where
  | pending
  | processing
  | completed
  | failed
deriving DecidableEq, Repr

/-- The `status === 'pending'`. -/
def TaskStatus.isPending : TaskStatus → Bool
  | .pending => true
  | _ => false

/-- The `status === 'processing'`. -/
def TaskStatus.isProcessing : TaskStatus → Bool
  | .processing => true
  | _ => false

/-- The `status === 'completed'`. -/
def TaskStatus.isCompleted : TaskStatus → Bool
  | .completed => true
  | _ => false

/-- The `status === 'completed' || status === 'failed'`. -/
def TaskStatus.isResolved : TaskStatus → Bool
  | .completed => true
  | .failed => true
  | _ => false

/-- The `RefData` from `src/types/state.ts`. -/
structure RefData where
  url : String
  ipfs_cid : Option String := none
  type : Option String := none
  size : Option Nat := none
  filename : Option String := none
deriving DecidableEq, Repr

/-- One task record.  The source has `TiffConversionTask` and
`ImageProcessingTask`, both extending `Task` (`src/types/state.ts`); at
runtime they are plain objects in one `Record<string, Task>`, so we model a
single structure holding the union of the fields, optional fields as
`Option`. -/
structure Task where
  task_id : String
  status : TaskStatus
  retry_count : Nat := 0
  started_at : Option Nat := none
  completed_at : Option Nat := none
  error : Option String := none
  -- shared input fields (both concrete task types declare these as required)
  input_r2_key : String
  input_file_name : String
  -- TiffConversionTask output fields
  output_r2_key : Option String := none
  output_file_name : Option String := none
  output_file_size : Option Nat := none
  -- ImageProcessingTask input/output fields
  input_content_type : Option String := none
  input_file_size : Option Nat := none
  input_cid : Option String := none
  ref_json_r2_key : Option String := none
  ref_data : Option RefData := none
  archive_r2_key : Option String := none
  fly_machine_id : Option String := none
deriving DecidableEq, Repr

/-- The `ProcessableFile` from `src/types/file.ts` as used throughout the source
(the fields read and written by `batch-do.ts` and the two phases).
`processing_config` is free-form in the source and is carried opaquely.
An absent `preprocessor_tags` is modelled as `[]`, which the source treats
identically (`file.preprocessor_tags || []`, `?.includes`). -/
structure ProcessableFile where
  r2_key : String
  logical_path : String
  file_name : String
  file_size : Nat
  content_type : String
  cid : Option String := none
  processing_config : String := ""
  source_file : Option String := none
  preprocessor_tags : List String := []
deriving DecidableEq, Repr

/-- One file entry of a queue-message directory (`startBatch`, lines 66-77 of
`src/batch-do.ts`). -/
structure QueueFile where
  r2_key : String
  logical_path : String
  file_name : String
  file_size : Nat
  content_type : String
  cid : Option String := none
deriving DecidableEq, Repr

/-- One directory group of the submission (`queueMessage.directories`). -/
structure QueueDirectory where
  files : List QueueFile
  processing_config : String := ""
deriving DecidableEq, Repr

/-- The submission payload, restricted to the fields the orchestrator reads
(`batch_id` and `directories`); further provenance fields of
`src/types/queue.ts` are carried nowhere in the orchestrator logic. -/
structure QueueMessage where
  batch_id : String
  directories : List QueueDirectory
deriving DecidableEq, Repr

/-- The `BatchState` from `src/types/state.ts`.  `current_phase_tasks` is a
`Record<string, Task>`: an association list in JavaScript object insertion
order with unique keys. -/
structure BatchState where
  batch_id : String
  status : BatchStatus
  queue_message : QueueMessage
  current_file_list : List ProcessableFile
  current_phase_tasks : List (String × Task)
  tasks_total : Nat
  tasks_completed : Nat
  tasks_failed : Nat
  started_at : Nat
  updated_at : Nat
  completed_at : Option Nat := none
  error : Option String := none
  phase_retry_count : Nat
deriving DecidableEq, Repr

/-- The configuration surface (`src/types/config.ts`), numeric fields as
naturals, string fields carried opaquely. -/
structure Config where
  FLY_TIFF_APP_NAME : String := "arke-tiff-worker"
  FLY_TIFF_WORKER_IMAGE : String := "registry.fly.io/arke-tiff-worker:latest"
  FLY_IMAGE_APP_NAME : String := "arke-image-processor"
  FLY_IMAGE_WORKER_IMAGE : String := "registry.fly.io/arke-image-processor:latest"
  FLY_REGION : String := "ord"
  ORCHESTRATOR_URL : String := "https://arke-preprocessing.workers.dev"
  WORKER_URL : String := "https://ingest.arke.institute"
  BATCH_SIZE_TIFF_CONVERSION : Nat := 1000
  BATCH_SIZE_IMAGE_PROCESSING : Nat := 1000
  ALARM_DELAY_TIFF_CONVERSION : Nat := 5000
  ALARM_DELAY_IMAGE_PROCESSING : Nat := 5000
  ALARM_DELAY_ERROR_RETRY : Nat := 30000
  TASK_TIMEOUT_TIFF_CONVERSION : Nat := 60000
  TASK_TIMEOUT_IMAGE_PROCESSING : Nat := 120000
  CDN_PUBLIC_URL : String := "https://cdn.arke.institute"
  CDN_API_URL : String := "https://cdn.arke.institute"
  MAX_RETRY_ATTEMPTS : Nat := 5
deriving DecidableEq, Repr

/-- The `loadConfig` of `src/config.ts` with an empty environment: every field
takes its documented default. -/
def defaultConfig : Config := {}

/-- The callback body POSTed by a Fly worker (`src/types/callback.ts`,
union of `TiffCallbackResult` and `ImageCallbackResult` payload fields).
`status` is the raw wire string; the phases compare it against
`'success'`. -/
structure CallbackResult where
  status : String
  output_r2_key : Option String := none
  output_file_name : Option String := none
  output_file_size : Option Nat := none
  ref_json_r2_key : Option String := none
  ref_data : Option RefData := none
  archive_r2_key : Option String := none
  error : Option String := none
deriving DecidableEq, Repr

/-- JavaScript truthiness of an optional string (`undefined` and `""` are
falsy). -/
def truthyS : Option String → Bool
  | some s => !(s = "")
  | none => false

/-- JavaScript truthiness of an optional number (`undefined` and `0` are
falsy). -/
def truthyN : Option Nat → Bool
  | some n => !(n = 0)
  | none => false

/-- The `Record` lookup `state.current_phase_tasks[taskId]`. -/
def lookupAssoc (ps : List (String × Task)) (k : String) : Option Task :=
  (ps.find? (fun p => p.1 = k)).map (·.2)

/-- Replace the value stored under key `k` (in-place mutation of the task
object held in the record). -/
def updateAssoc (ps : List (String × Task)) (k : String) (t : Task) :
    List (String × Task) :=
  ps.map (fun p => if p.1 = k then (p.1, t) else p)

/-- The `Object.fromEntries`: later pairs with an existing key overwrite the
value but keep the first key's position. -/
def objectFromEntries (ps : List (String × Task)) : List (String × Task) :=
  ps.foldl
    (fun acc p =>
      if acc.any (fun q => q.1 = p.1) then
        acc.map (fun q => if q.1 = p.1 then (q.1, p.2) else q)
      else acc ++ [p])
    []

/-- The `new Map(pairs).get k`: the last pair with key `k` wins. -/
def mapLookupLast (ps : List (String × Task)) (k : String) : Option Task :=
  (ps.reverse.find? (fun p => p.1 = k)).map (·.2)

/-- The `Math.round(x / 1000)` for an integer number of milliseconds
(round half toward positive infinity, i.e. floor of `x/1000 + 1/2`). -/
def jsRoundThousandths (x : Int) : Int := (x + 500).fdiv 1000

/-- The `toLowerCase()` over the character-list view of a string (semantically
`String.toLower`, stated this way so the kernel can evaluate it). -/
def lowerStr (v : String) : String :=
  String.mk (v.data.map Char.toLower)

/-- The `endsWith` over the character-list view of a string. -/
def endsWithStr (v suffix : String) : Bool :=
  List.isSuffixOf suffix.data v.data

/-- Drop the last `n` characters (semantically `String.dropRight`). -/
def dropRightStr (v : String) (n : Nat) : String :=
  String.mk (v.data.take (v.data.length - n))

/-- The `/\.tiff?$/i.test(fileName)` (`TiffConversionPhase.isTiff`). -/
def isTiff (fileName : String) : Bool :=
  let l := lowerStr fileName
  endsWithStr l ".tif" || endsWithStr l ".tiff"

/-- The `logical_path.replace(/\.tiff?$/i, '.jpg')`. -/
def replaceTiffExt (p : String) : String :=
  let l := lowerStr p
  if endsWithStr l ".tiff" then dropRightStr p 5 ++ ".jpg"
  else if endsWithStr l ".tif" then dropRightStr p 4 ++ ".jpg"
  else p

/-- The `ImageProcessingPhase.isProcessableImage`. -/
def isProcessableImage (f : ProcessableFile) : Bool :=
  let ct := lowerStr f.content_type
  ct = "image/jpeg" || ct = "image/jpg" || ct = "image/png" || ct = "image/webp"

/-- Modelled from the spec: `generateTaskId` lives in `src/utils/task-id.ts`,
which is not among the provided sources.  The spec states "Task identity is
derived deterministically from phase kind + input storage key", so the id is
modelled as the deterministic pairing of the two. -/
def generateTaskId (kind : String) (r2Key : String) : String :=
  kind ++ "_" ++ r2Key

/-- Minimal JSON string escaping as performed by `JSON.stringify` on the
string values inside `ref_data`. -/
def jsonEscapeChar (c : Char) : String :=
  if c = '"' then "\\\""
  else if c = '\\' then "\\\\"
  else if c = '\n' then "\\n"
  else if c = '\r' then "\\r"
  else if c = '\t' then "\\t"
  else String.singleton c

/-- Escape a whole string for JSON output. -/
def jsonEscape (v : String) : String :=
  String.join (v.toList.map jsonEscapeChar)

/-- The present fields of a `RefData` object rendered as JSON members, in the
interface's declaration order (`src/types/state.ts`); `JSON.stringify` omits
absent fields. -/
def refJsonFields (rd : RefData) : List String :=
  ["\"url\": \"" ++ jsonEscape rd.url ++ "\""]
  ++ (match rd.ipfs_cid with
      | some c => ["\"ipfs_cid\": \"" ++ jsonEscape c ++ "\""]
      | none => [])
  ++ (match rd.type with
      | some t => ["\"type\": \"" ++ jsonEscape t ++ "\""]
      | none => [])
  ++ (match rd.size with
      | some n => ["\"size\": " ++ toString n]
      | none => [])
  ++ (match rd.filename with
      | some f => ["\"filename\": \"" ++ jsonEscape f ++ "\""]
      | none => [])

/-- The `JSON.stringify(task.ref_data, null, 2)` (two-space pretty printing). -/
def refJsonContent (rd : RefData) : String :=
  "\x7b\n  " ++ String.intercalate ",\n  " (refJsonFields rd) ++ "\n\x7d"

/-- Oracle for one `executeBatch` invocation: the wall clock and the outcome
of each Fly machine provisioning call (`Promise.allSettled` over
`spawnFlyMachine`), keyed by task id.  A `spawnOk` of `false` is a rejected
dispatch; `machineId` is the machine handle returned on success. -/
structure ExecOracle where
  now : Nat
  spawnOk : String → Bool
  machineId : String → String

/-! ## TIFF conversion phase (`src/phases/tiff-conversion.ts`) -/

/-- Build the task discovered for one TIFF file (`TiffConversionPhase.discover`,
loop body). -/
def mkTiffTask (f : ProcessableFile) : Task :=
  { task_id := generateTaskId "tiff" f.r2_key
    status := .pending
    input_r2_key := f.r2_key
    input_file_name := f.file_name
    retry_count := 0 }

/-- The `TiffConversionPhase.discover`: one task per file whose name matches the
TIFF pattern. -/
def tiffDiscover (files : List ProcessableFile) : List Task :=
  files.filterMap (fun f => if isTiff f.file_name then some (mkTiffTask f) else none)

/-- A `processing` task whose elapsed time since `started_at` exceeds the
timeout (`checkTimeouts` loop guard; both phases share this predicate). -/
def overdue (now timeoutMs : Nat) (t : Task) : Bool :=
  t.status.isProcessing &&
    match t.started_at with
    | some t0 => decide ((now : Int) - (t0 : Int) > (timeoutMs : Int))
    | none => false

/-- The timeout failure applied to one task by
`TiffConversionPhase.checkTimeouts`. -/
def tiffFailTimedOut (now timeoutMs : Nat) (t : Task) : Task :=
  let elapsed : Int := (now : Int) - ((t.started_at.getD 0 : Nat) : Int)
  { t with
    status := .failed
    error := some ("Task timed out after " ++ toString (jsRoundThousandths elapsed)
      ++ "s (limit: " ++ toString ((timeoutMs + 500) / 1000) ++ "s)") }

/-- The per-task action of `TiffConversionPhase.checkTimeouts`. -/
def tiffTimeoutFix (timeoutMs now : Nat) (t : Task) : Task :=
  if overdue now timeoutMs t then tiffFailTimedOut now timeoutMs t else t

/-- The `TiffConversionPhase.checkTimeouts`: force every overdue `processing`
task to `failed` and count each into `tasks_failed`. -/
def tiffCheckTimeouts (state : BatchState) (timeoutMs now : Nat) : BatchState :=
  { state with
    current_phase_tasks := state.current_phase_tasks.map
      (fun p => (p.1, tiffTimeoutFix timeoutMs now p.2))
    tasks_failed := state.tasks_failed
      + (state.current_phase_tasks.filter (fun p => overdue now timeoutMs p.2)).length }

/-- The ids of the pending tasks selected for dispatch this tick (`filter` on
`pending`, `slice(0, batchSize)`). -/
def pendingSlice (tasks : List (String × Task)) (batchSize : Nat) : List String :=
  ((tasks.filter (fun p => p.2.status.isPending)).map (·.1)).take batchSize

/-- The per-task action of the dispatch loop: a selected task whose spawn
succeeded becomes `processing` with a start timestamp and the machine handle;
a failed spawn leaves the task `pending`. -/
def dispatchFix (o : ExecOracle) (pendingIds : List String)
    (p : String × Task) : String × Task :=
  if p.1 ∈ pendingIds then
    if o.spawnOk p.1 then
      (p.1, { p.2 with
        status := .processing
        started_at := some o.now
        fly_machine_id := some (o.machineId p.1) })
    else p
  else p

/-- Mark the selected pending tasks whose spawn succeeded as `processing`
(`executeBatch` post-`allSettled` loop, identical in both phases). -/
def dispatchPending (o : ExecOracle) (pendingIds : List String)
    (tasks : List (String × Task)) : List (String × Task) :=
  tasks.map (dispatchFix o pendingIds)

/-- The `state.current_phase_tasks` are all `completed` or `failed`. -/
def allTasksDone (tasks : List (String × Task)) : Bool :=
  tasks.all (fun p => p.2.status.isResolved)

/-- The `TiffConversionPhase.executeBatch`: reconcile timeouts first, then
dispatch up to the batch-size cap of pending tasks; returns the updated state
and the `more_work` flag. -/
def tiffExecuteBatch (state : BatchState) (config : Config) (o : ExecOracle) :
    BatchState × Bool :=
  let state := tiffCheckTimeouts state config.TASK_TIMEOUT_TIFF_CONVERSION o.now
  let pendingIds := pendingSlice state.current_phase_tasks config.BATCH_SIZE_TIFF_CONVERSION
  if pendingIds.isEmpty then
    if allTasksDone state.current_phase_tasks then (state, false) else (state, true)
  else
    ({ state with
        current_phase_tasks := dispatchPending o pendingIds state.current_phase_tasks },
     true)

/-- Which progress counter a phase callback bumps on the orchestrator state. -/
inductive CbDelta where
  | completed
  | failed
deriving DecidableEq, Repr

/-- The `TiffConversionPhase.handleCallback`: unconditionally applies the result
to the task (no check of the task's current status) and reports which counter
to increment. -/
def tiffHandleCallback (t : Task) (r : CallbackResult) (now : Nat) : Task × CbDelta :=
  if r.status = "success" then
    ({ t with
        status := .completed
        output_r2_key := r.output_r2_key
        output_file_name := r.output_file_name
        output_file_size := r.output_file_size
        completed_at := some now },
     .completed)
  else
    ({ t with status := .failed, error := r.error }, .failed)

/-- The `TiffConversionPhase.getNextPhase` returns `null`. -/
def tiffGetNextPhase : Option BatchStatus := none

/-- The guard of `TiffConversionPhase.transformFile`: the task completed and
all of its output fields are (JavaScript-)truthy. -/
def tiffConversionApplied (t : Task) : Bool :=
  t.status.isCompleted && truthyS t.output_r2_key
    && truthyS t.output_file_name && truthyN t.output_file_size

/-- The `TiffConversionPhase.transformFile`: a completed conversion yields both
the original TIFF (tagged `TiffConverter:source`) and the converted JPEG
(tagged `TiffConverter`); anything else passes through unchanged. -/
def tiffTransformFile (f : ProcessableFile) (task : Option Task) :
    List ProcessableFile :=
  match task with
  | some t =>
    if tiffConversionApplied t then
      [ { f with preprocessor_tags := f.preprocessor_tags ++ ["TiffConverter:source"] },
        { r2_key := t.output_r2_key.getD ""
          logical_path := replaceTiffExt f.logical_path
          file_name := t.output_file_name.getD ""
          file_size := t.output_file_size.getD 0
          content_type := "image/jpeg"
          cid := none
          processing_config := f.processing_config
          source_file := some f.file_name
          preprocessor_tags := ["TiffConverter"] } ]
    else [f]
  | none => [f]

/-! ## Image processing phase (`src/phases/image-processing.ts`) -/

/-- Whether `ImageProcessingPhase.discover` creates a task for a file: it
must be a processable image type and must not carry the
`TiffConverter:source` tag. -/
def imageWantsTask (f : ProcessableFile) : Bool :=
  isProcessableImage f && !(f.preprocessor_tags.contains "TiffConverter:source")

/-- Build the task discovered for one image file
(`ImageProcessingPhase.discover`, loop body). -/
def mkImageTask (f : ProcessableFile) : Task :=
  { task_id := generateTaskId "img" f.r2_key
    status := .pending
    input_r2_key := f.r2_key
    input_file_name := f.file_name
    input_content_type := some f.content_type
    input_file_size := some f.file_size
    input_cid := f.cid
    retry_count := 0 }

/-- The `ImageProcessingPhase.discover`. -/
def imageDiscover (files : List ProcessableFile) : List Task :=
  files.filterMap (fun f => if imageWantsTask f then some (mkImageTask f) else none)

/-- The timeout failure applied to one task by
`ImageProcessingPhase.checkTimeouts` (unlike the TIFF phase it also stamps
`completed_at` and omits the limit from the message). -/
def imageFailTimedOut (now : Nat) (t : Task) : Task :=
  let elapsed : Int := (now : Int) - ((t.started_at.getD 0 : Nat) : Int)
  { t with
    status := .failed
    error := some ("Task timed out after " ++ toString (jsRoundThousandths elapsed) ++ "s")
    completed_at := some now }

/-- The per-task action of `ImageProcessingPhase.checkTimeouts`. -/
def imageTimeoutFix (timeoutMs now : Nat) (t : Task) : Task :=
  if overdue now timeoutMs t then imageFailTimedOut now t else t

/-- The `ImageProcessingPhase.checkTimeouts`. -/
def imageCheckTimeouts (state : BatchState) (timeoutMs now : Nat) : BatchState :=
  { state with
    current_phase_tasks := state.current_phase_tasks.map
      (fun p => (p.1, imageTimeoutFix timeoutMs now p.2))
    tasks_failed := state.tasks_failed
      + (state.current_phase_tasks.filter (fun p => overdue now timeoutMs p.2)).length }

/-- The `ImageProcessingPhase.executeBatch`: selects pending tasks first and only
checks timeouts on invocations that selected none (and that are not already
complete). -/
def imageExecuteBatch (state : BatchState) (config : Config) (o : ExecOracle) :
    BatchState × Bool :=
  let pendingIds := pendingSlice state.current_phase_tasks config.BATCH_SIZE_IMAGE_PROCESSING
  if pendingIds.isEmpty then
    if allTasksDone state.current_phase_tasks then (state, false)
    else (imageCheckTimeouts state config.TASK_TIMEOUT_IMAGE_PROCESSING o.now, true)
  else
    ({ state with
        current_phase_tasks := dispatchPending o pendingIds state.current_phase_tasks },
     true)

/-- The `ImageProcessingPhase.handleCallback`: like the TIFF phase, applies the
result unconditionally. -/
def imageHandleCallback (t : Task) (r : CallbackResult) (now : Nat) : Task × CbDelta :=
  if r.status = "success" then
    ({ t with
        status := .completed
        ref_json_r2_key := r.ref_json_r2_key
        ref_data := r.ref_data
        archive_r2_key := r.archive_r2_key
        completed_at := some now },
     .completed)
  else
    ({ t with status := .failed, error := r.error }, .failed)

/-- The `ImageProcessingPhase.getNextPhase` returns `null`. -/
def imageGetNextPhase : Option BatchStatus := none

/-- The guard of `ImageProcessingPhase.transformFile`: the task completed
and its `.ref.json` output fields are truthy. -/
def imageProcessingApplied (t : Task) : Bool :=
  t.status.isCompleted && truthyS t.ref_json_r2_key && t.ref_data.isSome

/-- The `ImageProcessingPhase.transformFile`: a successfully processed image is
replaced by its `.ref.json` descriptor (tagged `ImageProcessor`); everything
else passes through unchanged. -/
def imageTransformFile (f : ProcessableFile) (task : Option Task) :
    List ProcessableFile :=
  match task with
  | some t =>
    if imageProcessingApplied t then
      [ { r2_key := t.ref_json_r2_key.getD ""
          logical_path := f.logical_path ++ ".ref.json"
          file_name := f.file_name ++ ".ref.json"
          file_size := (refJsonContent (t.ref_data.getD { url := "" })).utf8ByteSize
          content_type := "application/json"
          cid := none
          processing_config := f.processing_config
          source_file := some f.file_name
          preprocessor_tags := ["ImageProcessor"] } ]
    else [f]
  | none => [f]

/-! ## Phase registry (`src/batch-do.ts`, `phases` map and `src/phases/base.ts`) -/

/-- The `Phase` contract of `src/phases/base.ts`, as the record of operations
the orchestrator dispatches through. -/
structure PhaseImpl where
  name : BatchStatus
  discover : List ProcessableFile → List Task
  executeBatch : BatchState → Config → ExecOracle → BatchState × Bool
  handleCallback : Task → CallbackResult → Nat → Task × CbDelta
  getNextPhase : Option BatchStatus
  transformFile : ProcessableFile → Option Task → List ProcessableFile

/-- The `new TiffConversionPhase()`. -/
def tiffPhase : PhaseImpl :=
  { name := .TIFF_CONVERSION
    discover := tiffDiscover
    executeBatch := tiffExecuteBatch
    handleCallback := tiffHandleCallback
    getNextPhase := tiffGetNextPhase
    transformFile := tiffTransformFile }

/-- The `new ImageProcessingPhase()`. -/
def imagePhase : PhaseImpl :=
  { name := .IMAGE_PROCESSING
    discover := imageDiscover
    executeBatch := imageExecuteBatch
    handleCallback := imageHandleCallback
    getNextPhase := imageGetNextPhase
    transformFile := imageTransformFile }

/-- The `this.phases.get(status)` over the registry map literal of
`src/batch-do.ts` lines 40-43. -/
def phasesGet : BatchStatus → Option PhaseImpl
  | .TIFF_CONVERSION => some tiffPhase
  | .IMAGE_PROCESSING => some imagePhase
  | _ => none

/-! ## Durable Object orchestrator (`src/batch-do.ts`)

Each mutating operation is modelled as a pure function from the durable
storage (`DOState`) and the run-time oracles to the ordered list of storage
effects it performs (`storage.put`, `storage.setAlarm`, `storage.deleteAlarm`,
plus the outbound finalization delivery).  `applyEffects` folds the effects
back onto the storage. -/

/-- One storage or outbound effect of a Durable Object operation. -/
inductive Effect where
  /-- The `this.ctx.storage.put('state', s)` -/
  | putState (s : BatchState)
  /-- The `this.ctx.storage.setAlarm(t)` (replaces any outstanding alarm) -/
  | setAlarm (t : Nat)
  /-- The `this.ctx.storage.deleteAlarm()` -/
  | deleteAlarm
  /-- the finalization `fetch` to the ingest worker with the final file list -/
  | deliver (files : List ProcessableFile)
deriving DecidableEq, Repr

/-- The durable storage of one batch key: the state blob and the single
outstanding alarm (absolute time), both surviving restarts. -/
structure DOState where
  stored : Option BatchState
  alarm : Option Nat
deriving DecidableEq, Repr

/-- Apply one effect to the durable storage. -/
def applyEffect (d : DOState) : Effect → DOState
  | .putState s => { d with stored := some s }
  | .setAlarm t => { d with alarm := some t }
  | .deleteAlarm => { d with alarm := none }
  | .deliver _ => d

/-- Apply an ordered effect list to the durable storage. -/
def applyEffects (d : DOState) (es : List Effect) : DOState :=
  es.foldl applyEffect d

/-- Run-time oracle for one Durable Object operation: the wall clock, whether
the guarded body of the alarm handler throws (and the error message), the
outcome of each Fly dispatch, and the outcome of the finalization delivery. -/
structure Oracle where
  now : Nat
  throws : Option String := none
  spawnOk : String → Bool := fun _ => true
  machineId : String → String := fun _ => "machine"
  deliverOk : Bool := true
  deliverErr : String := ""

/-- The `executeBatch`-level view of the oracle. -/
def Oracle.execO (o : Oracle) : ExecOracle :=
  { now := o.now, spawnOk := o.spawnOk, machineId := o.machineId }

/-- The `startBatch` lines 64-78: flatten the queue message's directory groups
into the initial `ProcessableFile` list. -/
def initialFilesOf (qm : QueueMessage) : List ProcessableFile :=
  (qm.directories.map (fun d => d.files.map (fun f =>
    { r2_key := f.r2_key
      logical_path := f.logical_path
      file_name := f.file_name
      file_size := f.file_size
      content_type := f.content_type
      cid := f.cid
      processing_config := d.processing_config
      source_file := none
      preprocessor_tags := [] : ProcessableFile }))).flatten

/-- The `finalizeBatch`: stamp `DONE`, persist, deliver the transformed file list
to the ingest worker; a failed delivery terminally flips the batch to `ERROR`
with a descriptive message and clears the alarm (not retried). -/
def finalizeEffects (o : Oracle) (s : BatchState) : List Effect :=
  let s1 := { s with status := .DONE, completed_at := some o.now }
  [Effect.putState s1, Effect.deliver s1.current_file_list]
  ++ (if o.deliverOk then []
      else
        [Effect.deleteAlarm,
         Effect.putState { s1 with
           status := .ERROR
           error := some ("Worker callback failed: " ++ o.deliverErr) }])

/-- The `applyPhaseTransformations`: fold the completed phase's `transformFile`
over the current file list against a task lookup keyed by the task's input
storage key (`(t as any).input_r2_key`; the `|| (t as any).r2_key` fallback
engages only for an empty key, where the JavaScript `Map` key degenerates to
`undefined` and matches no file, modelled by omitting the entry). -/
def applyPhaseTransformations (ph : PhaseImpl) (s : BatchState) :
    List ProcessableFile :=
  let taskMap := s.current_phase_tasks.filterMap
    (fun p => if p.2.input_r2_key = "" then none else some (p.2.input_r2_key, p.2))
  (s.current_file_list.map
    (fun f => ph.transformFile f (mapLookupLast taskMap f.r2_key))).flatten

/-- The `transitionToNextPhase`: rebuild the file list via the completed phase's
transform, then either finalize (no next phase) or discover for the next
phase, reset the counters and task map, and arm a short alarm — recursing
immediately when the next phase discovered nothing.  `fuel` bounds the
recursion depth; the registry's phase chain has length at most two, so any
fuel of at least the registry size is exact. -/
def transitionEffects (o : Oracle) : Nat → PhaseImpl → BatchState → List Effect
  | 0, _, _ => []
  | fuel + 1, ph, s =>
    let transformed := applyPhaseTransformations ph s
    let s := { s with current_file_list := transformed }
    match ph.getNextPhase with
    | none => finalizeEffects o s
    | some nextStatus =>
      match phasesGet nextStatus with
      | none => []
      | some nph =>
        let tasks := nph.discover transformed
        let s' := { s with
          status := nextStatus
          current_phase_tasks := objectFromEntries (tasks.map (fun t => (t.task_id, t)))
          tasks_total := tasks.length
          tasks_completed := 0
          tasks_failed := 0
          phase_retry_count := 0 }
        Effect.putState s' ::
          (if tasks.isEmpty then transitionEffects o fuel nph s'
           else [Effect.setAlarm (o.now + 1000)])

/-- Fuel passed to `transitionEffects` at every call site; the phase chain
of the registry never exceeds its size, so `4` is never exhausted. -/
def phaseFuel : Nat := 4

/-- The capped exponential backoff of `handleError`
(`Math.min(config.ALARM_DELAY_ERROR_RETRY, 1000 * Math.pow(2, retry_count))`). -/
def backoffDelay (config : Config) (k : Nat) : Nat :=
  min config.ALARM_DELAY_ERROR_RETRY (1000 * 2 ^ k)

/-- The `handleError`: bump `phase_retry_count`; at the configured maximum, stamp
`ERROR` with a message carrying the count and the triggering error, clear the
alarm and persist; otherwise persist the incremented counter and arm a
backoff alarm. -/
def handleErrorEffects (config : Config) (o : Oracle) (s : BatchState)
    (msg : String) : List Effect :=
  let s1 := { s with phase_retry_count := s.phase_retry_count + 1 }
  if s1.phase_retry_count ≥ config.MAX_RETRY_ATTEMPTS then
    [Effect.deleteAlarm,
     Effect.putState { s1 with
       status := .ERROR
       error := some ("Failed after " ++ toString s1.phase_retry_count
         ++ " retries: " ++ msg) }]
  else
    [Effect.putState s1,
     Effect.setAlarm (o.now + backoffDelay config s1.phase_retry_count)]

/-- The `alarm`: terminal states clear the alarm and exit; otherwise resolve the
current phase, run its `executeBatch` (the oracle's `throws` models the
guarded body throwing), persist with the retry counter reset, and either
re-arm the (TIFF-phase) delay or transition. -/
def alarmEffects (config : Config) (o : Oracle) (d : DOState) : List Effect :=
  match d.stored with
  | none => []
  | some s =>
    if s.status = .ERROR ∨ s.status = .DONE then [Effect.deleteAlarm]
    else
      match phasesGet s.status with
      | none => []
      | some ph =>
        match o.throws with
        | some msg => handleErrorEffects config o s msg
        | none =>
          let r := ph.executeBatch s config o.execO
          let s2 := { r.1 with updated_at := o.now, phase_retry_count := 0 }
          Effect.putState s2 ::
            (if r.2 then [Effect.setAlarm (o.now + config.ALARM_DELAY_TIFF_CONVERSION)]
             else transitionEffects o phaseFuel ph s2)

/-- The `startBatch`: a no-op when a non-`ERROR` state already exists; otherwise
build the initial file list, run the first phase's discovery, persist the
fresh state, and either finalize immediately (zero tasks) or arm the first
alarm. -/
def startBatchEffects (o : Oracle) (qm : QueueMessage) (d : DOState) :
    List Effect :=
  match d.stored with
  | some s =>
    if s.status ≠ .ERROR then []
    else startFresh
  | none => startFresh
where
  startFresh : List Effect :=
    let initialFiles := initialFilesOf qm
    let tasks := tiffDiscover initialFiles
    let s0 : BatchState :=
      { batch_id := qm.batch_id
        status := .TIFF_CONVERSION
        queue_message := qm
        current_file_list := initialFiles
        current_phase_tasks := objectFromEntries (tasks.map (fun t => (t.task_id, t)))
        tasks_total := tasks.length
        tasks_completed := 0
        tasks_failed := 0
        started_at := o.now
        updated_at := o.now
        phase_retry_count := 0 }
    Effect.putState s0 ::
      (if tasks.isEmpty then finalizeEffects o s0
       else [Effect.setAlarm (o.now + 1000)])

/-- The `handleCallback`: hard-fails (and performs no effect) when the batch or
the task is unknown; otherwise delegates to the current phase's callback
handler, persists, and transitions immediately when every task is resolved.
The second component is the thrown error, `none` on success. -/
def callbackEffects (config : Config) (o : Oracle) (taskId : String)
    (result : CallbackResult) (d : DOState) : List Effect × Option String :=
  match d.stored with
  | none => ([], some "Batch not found")
  | some s =>
    match lookupAssoc s.current_phase_tasks taskId with
    | none => ([], some ("Task not found: " ++ taskId))
    | some task =>
      match phasesGet s.status with
      | none => ([], some "TypeError: undefined phase handler")
      | some ph =>
        let tr := ph.handleCallback task result o.now
        let s1 := { s with
          current_phase_tasks := updateAssoc s.current_phase_tasks taskId tr.1
          tasks_completed := s.tasks_completed + (if tr.2 = .completed then 1 else 0)
          tasks_failed := s.tasks_failed + (if tr.2 = .failed then 1 else 0)
          updated_at := o.now }
        (Effect.putState s1 ::
          (if allTasksDone s1.current_phase_tasks then transitionEffects o phaseFuel ph s1
           else []),
         none)

/-- The storage after a `startBatch` invocation. -/
def startStep (o : Oracle) (qm : QueueMessage) (d : DOState) : DOState :=
  applyEffects d (startBatchEffects o qm d)

/-- The storage after an `alarm` invocation. -/
def tickStep (config : Config) (o : Oracle) (d : DOState) : DOState :=
  applyEffects d (alarmEffects config o d)

/-- The storage after a `handleCallback` invocation (a thrown error performs
no effect). -/
def callbackStep (config : Config) (o : Oracle) (taskId : String)
    (result : CallbackResult) (d : DOState) : DOState :=
  applyEffects d (callbackEffects config o taskId result d).1

/-- The storages reachable from the empty durable storage by any interleaving
of `startBatch`, `alarm` and `handleCallback` invocations, under arbitrary
configurations and oracles. -/
inductive Reachable : DOState → Prop where
  | init : Reachable { stored := none, alarm := none }
  | start (o : Oracle) (qm : QueueMessage) {d : DOState} :
      Reachable d → Reachable (startStep o qm d)
  | tick (config : Config) (o : Oracle) {d : DOState} :
      Reachable d → Reachable (tickStep config o d)
  | callback (config : Config) (o : Oracle) (taskId : String)
      (result : CallbackResult) {d : DOState} :
      Reachable d → Reachable (callbackStep config o taskId result d)

/-- The keys of the task record are distinct, as JavaScript object keys are;
every state the orchestrator builds satisfies this (`Object.fromEntries`). -/
def taskKeysNodup (s : BatchState) : Prop :=
  (s.current_phase_tasks.map Prod.fst).Nodup

/-- The statuses a batch can actually be in (`IMAGE_PROCESSING` excluded). -/
def statusSafe (st : BatchStatus) : Prop :=
  st = .TIFF_CONVERSION ∨ st = .DONE ∨ st = .ERROR

/-- Every stored state has a safe status. -/
def storedSafe (d : DOState) : Prop :=
  ∀ s, d.stored = some s → statusSafe s.status

/-- Every state written by an effect list has a safe status. -/
def effectsSafe (es : List Effect) : Prop :=
  ∀ s, Effect.putState s ∈ es → statusSafe s.status

/-! ## Concrete sample data used to instantiate the theorems -/

/-- The empty durable storage. -/
def emptyDO : DOState := { stored := none, alarm := none }

/-- A one-TIFF submission. -/
def sampleQm : QueueMessage :=
  { batch_id := "w"
    directories := [
      { files := [
          { r2_key := "f1", logical_path := "in/f1.tif", file_name := "f1.tif"
            file_size := 1, content_type := "image/tiff" }] }] }

/-- A plain `TIFF_CONVERSION` state with no tasks. -/
def sampleState : BatchState :=
  { batch_id := "w"
    status := .TIFF_CONVERSION
    queue_message := sampleQm
    current_file_list := []
    current_phase_tasks := []
    tasks_total := 0
    tasks_completed := 0
    tasks_failed := 0
    started_at := 0
    updated_at := 0
    phase_retry_count := 0 }

/-- A stored sample batch with an outstanding alarm. -/
def sampleDO : DOState := { stored := some sampleState, alarm := some 1000 }

/-- The storage right after starting `sampleQm`. -/
def c1DO : DOState := startStep { now := 0 } sampleQm emptyDO

/-- The state stored by that start. -/
def c1State : BatchState := c1DO.stored.getD sampleState

/-- Two-TIFF submission for the counter-invariant trace. -/
def c2Qm : QueueMessage :=
  { batch_id := "b"
    directories := [
      { files := [
          { r2_key := "a", logical_path := "x/a.tif", file_name := "a.tif"
            file_size := 5, content_type := "image/tiff" },
          { r2_key := "bb", logical_path := "x/b.tif", file_name := "b.tif"
            file_size := 6, content_type := "image/tiff" }] }] }

/-- Dispatch one machine per tick so the two tasks start at different times. -/
def c2Cfg : Config := { BATCH_SIZE_TIFF_CONVERSION := 1 }

/-- Trace: start, dispatch `a`, dispatch `bb`, then a tick at `62000` whose
timeout check forces `a` to `failed` (its 61-second run exceeds the
one-minute timeout while `bb` is still fresh). -/
def c2d1 : DOState := startStep { now := 0 } c2Qm emptyDO

def c2d2 : DOState := tickStep c2Cfg { now := 1000 } c2d1

def c2d3 : DOState := tickStep c2Cfg { now := 6000 } c2d2

def c2d4 : DOState := tickStep c2Cfg { now := 62000 } c2d3

/-- The late success callback of the already-timed-out task `a`. -/
def c2CbA : CallbackResult :=
  { status := "success", output_r2_key := some "a.jpg"
    output_file_name := some "a.jpg", output_file_size := some 3 }

def c2d5 : DOState := callbackStep c2Cfg { now := 63000 } "tiff_a" c2CbA c2d4

/-- The ordinary success callback of task `bb`. -/
def c2CbB : CallbackResult :=
  { status := "success", output_r2_key := some "b.jpg"
    output_file_name := some "b.jpg", output_file_size := some 4 }

def c2d6 : DOState := callbackStep c2Cfg { now := 64000 } "tiff_bb" c2CbB c2d5

/-- An overdue `processing` image task (started at 0). -/
def c3Task2 : Task :=
  { task_id := "p2", status := .processing, started_at := some 0
    input_r2_key := "r2", input_file_name := "r2.jpg" }

/-- An `IMAGE_PROCESSING` state holding one pending task and one overdue
processing task. -/
def c3State : BatchState :=
  { batch_id := "c3"
    status := .IMAGE_PROCESSING
    queue_message := { batch_id := "c3", directories := [] }
    current_file_list := []
    current_phase_tasks :=
      [("p1", { task_id := "p1", status := .pending
                input_r2_key := "r1", input_file_name := "r1.jpg" }),
       ("p2", c3Task2)]
    tasks_total := 2
    tasks_completed := 0
    tasks_failed := 0
    started_at := 0
    updated_at := 0
    phase_retry_count := 0 }

/-- Wall clock far past the image-task timeout. -/
def c3Oracle : Oracle := { now := 10000000 }

/-- A `TIFF_CONVERSION` state with a single long-overdue processing task. -/
def c3TiffState : BatchState :=
  { sampleState with
    current_phase_tasks :=
      [("q1", { task_id := "q1", status := .processing, started_at := some 0
                input_r2_key := "qk", input_file_name := "qk.tif" })]
    tasks_total := 1 }

/-- Five consecutive throwing ticks after starting one batch. -/
def c5Throw (n : Nat) : Oracle := { now := n, throws := some "boom" }

def c5d0 : DOState := startStep { now := 0 } sampleQm emptyDO

def c5d1 : DOState := tickStep defaultConfig (c5Throw 1000) c5d0

def c5d2 : DOState := tickStep defaultConfig (c5Throw 2000) c5d1

def c5d3 : DOState := tickStep defaultConfig (c5Throw 3000) c5d2

def c5d4 : DOState := tickStep defaultConfig (c5Throw 4000) c5d3

def c5d5 : DOState := tickStep defaultConfig (c5Throw 5000) c5d4

/-- A stored `ERROR` batch with a (stale) outstanding alarm. -/
def c5ErrState : BatchState := { sampleState with status := .ERROR }

def c5ErrDO : DOState := { stored := some c5ErrState, alarm := some 7 }

/-- A batch one failure away from the retry limit. -/
def c5AlmostState : BatchState := { sampleState with phase_retry_count := 4 }

def c5AlmostDO : DOState := { stored := some c5AlmostState, alarm := some 2 }

/-- Storage holding `sampleState` with no alarm, for the backoff witness. -/
def c6DO : DOState := { stored := some sampleState, alarm := none }

/-- A throwing tick oracle at time 0. -/
def c6Oracle : Oracle := { now := 0, throws := some "boom" }

/-- A configuration whose image-phase delay differs from the TIFF delay. -/
def c9Cfg : Config := { ALARM_DELAY_IMAGE_PROCESSING := 7000 }

/-- An `IMAGE_PROCESSING` state with work remaining (one processing task,
not yet overdue). -/
def c9State : BatchState :=
  { c3State with
    current_phase_tasks :=
      [("p2", { c3Task2 with started_at := some 50 })]
    tasks_total := 1 }

def c9DO : DOState := { stored := some c9State, alarm := none }

def c9Oracle : Oracle := { now := 100 }

/-- A `TIFF_CONVERSION` state with one pending task, for the amended-delay
witness (its tick reports more work). -/
def c9TiffState : BatchState :=
  { sampleState with
    current_phase_tasks :=
      [("w1", { task_id := "w1", status := .pending
                input_r2_key := "wk", input_file_name := "wk.tif" })]
    tasks_total := 1 }

def c9TiffDO : DOState := { stored := some c9TiffState, alarm := none }

/-- A TIFF file about to be transformed. -/
def c10File : ProcessableFile :=
  { r2_key := "k1", logical_path := "d/a.tif", file_name := "a.tif"
    file_size := 7, content_type := "image/tiff" }

/-- Its completed conversion task. -/
def c10Task : Task :=
  { task_id := "tiff_k1", status := .completed
    input_r2_key := "k1", input_file_name := "a.tif"
    output_r2_key := some "k1.jpg", output_file_name := some "a.jpg"
    output_file_size := some 3 }

/-! ## General lemmas about the embedding -/

theorem applyEffects_nil (d : DOState) : applyEffects d [] = d := rfl

theorem applyEffects_append (d : DOState) (es fs : List Effect) :
    applyEffects d (es ++ fs) = applyEffects (applyEffects d es) fs :=
  List.foldl_append ..

/-- In an association list with distinct keys, two members sharing a key
share their value. -/
theorem assoc_nodup_val {l : List (String × Task)} (h : (l.map Prod.fst).Nodup)
    {k : String} {a b : Task} (ha : (k, a) ∈ l) (hb : (k, b) ∈ l) : a = b := by
  induction l with
  | nil => cases ha
  | cons p tl ih =>
    rw [List.map_cons, List.nodup_cons] at h
    rcases List.mem_cons.mp ha with ha1 | ha1 <;>
      rcases List.mem_cons.mp hb with hb1 | hb1
    · exact congrArg Prod.snd (ha1.trans hb1.symm)
    · exfalso
      apply h.1
      have hk : p.1 = k := (congrArg Prod.fst ha1).symm
      rw [hk]
      exact List.mem_map_of_mem Prod.fst hb1
    · exfalso
      apply h.1
      have hk : p.1 = k := (congrArg Prod.fst hb1).symm
      rw [hk]
      exact List.mem_map_of_mem Prod.fst ha1
    · exact ih h.2 ha1 hb1

/-- A key-preserving map keeps the key column of an association list. -/
theorem map_fst_of_keyfix {f : String × Task → String × Task}
    (hf : ∀ p, (f p).1 = p.1) (l : List (String × Task)) :
    (l.map f).map Prod.fst = l.map Prod.fst := by
  rw [List.map_map]
  exact List.map_congr_left (fun p _ => hf p)

theorem dispatchFix_fst (o : ExecOracle) (ids : List String) (p : String × Task) :
    (dispatchFix o ids p).1 = p.1 := by
  unfold dispatchFix
  split <;> [skip; rfl]
  split <;> rfl

/-- A selected pending id always names a pending task of the list. -/
theorem mem_pendingSlice {tasks : List (String × Task)} {cap : Nat} {k : String}
    (h : k ∈ pendingSlice tasks cap) :
    ∃ t, (k, t) ∈ tasks ∧ t.status.isPending = true := by
  unfold pendingSlice at h
  have h2 := List.mem_of_mem_take h
  rcases List.mem_map.mp h2 with ⟨p, hp, hpk⟩
  rcases List.mem_filter.mp hp with ⟨hmem, hpend⟩
  exact ⟨p.2, by rw [← hpk]; exact hmem, hpend⟩

/-- With distinct keys, a non-pending entry is never selected for dispatch
and passes through the dispatch loop unchanged. -/
theorem dispatchFix_of_not_pending {tasks : List (String × Task)} (cap : Nat)
    (hnd : (tasks.map Prod.fst).Nodup) {k : String} {t : Task}
    (hmem : (k, t) ∈ tasks) (hnp : t.status.isPending = false)
    (o : ExecOracle) :
    dispatchFix o (pendingSlice tasks cap) (k, t) = (k, t) := by
  unfold dispatchFix
  have hk : ¬ ((k, t).1 ∈ pendingSlice tasks cap) := by
    intro hk
    rcases mem_pendingSlice hk with ⟨t', hmem', hpend'⟩
    have := assoc_nodup_val hnd hmem hmem'
    rw [← this] at hpend'
    rw [hnp] at hpend'
    cases hpend'
  simp [hk]

theorem isPending_false_of_isResolved {st : TaskStatus}
    (h : st.isResolved = true) : st.isPending = false := by
  cases st <;> simp_all [TaskStatus.isResolved, TaskStatus.isPending]

theorem overdue_false_of_not_processing {t : Task} (h : t.status.isProcessing = false)
    (now timeoutMs : Nat) : overdue now timeoutMs t = false := by
  unfold overdue
  rw [h]
  rfl

/-! ## Claim theorems -/

/-- C4: `startBatch` is idempotent — when a persisted state exists whose
status is not `ERROR`, a second start performs no effect at all: the stored
`BatchState` (counters, tasks, file list, timestamps) is untouched and no new
alarm is armed. -/
theorem c4_idempotent_start (o : Oracle) (qm : QueueMessage) (d : DOState)
    (s : BatchState) (hs : d.stored = some s) (hne : s.status ≠ .ERROR) :
    startBatchEffects o qm d = [] ∧ startStep o qm d = d := by
  have h1 : startBatchEffects o qm d = [] := by
    unfold startBatchEffects
    rw [hs]
    simp [hne]
  refine ⟨h1, ?_⟩
  unfold startStep
  rw [h1]
  rfl

/-- Witness for C4 at a concrete stored non-`ERROR` batch. -/
theorem c4_witness :
    startBatchEffects { now := 5 } sampleQm sampleDO = [] ∧
    startStep { now := 5 } sampleQm sampleDO = sampleDO :=
  c4_idempotent_start { now := 5 } sampleQm sampleDO sampleState rfl (by decide)

/-- C8: a completion callback for a batch with no stored state, or whose task
id is absent from the current phase's task map, throws a hard error and
performs no storage effect — the persisted batch state and alarm are entirely
unchanged. -/
theorem c8_unknown_callback_rejected (config : Config) (o : Oracle)
    (tid : String) (res : CallbackResult) (d : DOState) :
    (d.stored = none →
      callbackEffects config o tid res d = ([], some "Batch not found") ∧
      callbackStep config o tid res d = d) ∧
    (∀ s, d.stored = some s → lookupAssoc s.current_phase_tasks tid = none →
      callbackEffects config o tid res d = ([], some ("Task not found: " ++ tid)) ∧
      callbackStep config o tid res d = d) := by
  constructor
  · intro h
    have h1 : callbackEffects config o tid res d = ([], some "Batch not found") := by
      unfold callbackEffects
      rw [h]
    refine ⟨h1, ?_⟩
    unfold callbackStep
    rw [h1]
    rfl
  · intro s hs hl
    have h1 : callbackEffects config o tid res d
        = ([], some ("Task not found: " ++ tid)) := by
      simp [callbackEffects, hs, hl]
    refine ⟨h1, ?_⟩
    unfold callbackStep
    rw [h1]
    rfl

/-- Witness for C8: an unknown batch and an unknown task id are both hard
errors with no state change. -/
theorem c8_witness :
    (callbackEffects defaultConfig { now := 3 } "zz" { status := "success" } emptyDO
        = ([], some "Batch not found") ∧
      callbackStep defaultConfig { now := 3 } "zz" { status := "success" } emptyDO
        = emptyDO) ∧
    (callbackEffects defaultConfig { now := 3 } "zz" { status := "success" } sampleDO
        = ([], some ("Task not found: " ++ "zz")) ∧
      callbackStep defaultConfig { now := 3 } "zz" { status := "success" } sampleDO
        = sampleDO) :=
  ⟨(c8_unknown_callback_rejected defaultConfig { now := 3 } "zz"
      { status := "success" } emptyDO).1 rfl,
   (c8_unknown_callback_rejected defaultConfig { now := 3 } "zz"
      { status := "success" } sampleDO).2 sampleState rfl rfl⟩

/-- C6: a failed tick below the retry limit persists the incremented
`phase_retry_count` first and then arms an alarm after exactly
`min(cap, 1000 * 2 ^ k)` milliseconds, where `k` is the incremented retry
count and `cap` the configured error-retry cap; for every `k` at least the
cap the delay plateaus at exactly the cap. -/
theorem c6_backoff_bound (config : Config) (o : Oracle) (d : DOState)
    (s : BatchState) (msg : String) (hs : d.stored = some s)
    (hterm : ¬(s.status = .ERROR ∨ s.status = .DONE))
    (hthrow : o.throws = some msg)
    (hlt : s.phase_retry_count + 1 < config.MAX_RETRY_ATTEMPTS) :
    alarmEffects config o d =
      [Effect.putState { s with phase_retry_count := s.phase_retry_count + 1 },
       Effect.setAlarm (o.now + backoffDelay config (s.phase_retry_count + 1))] ∧
    backoffDelay config (s.phase_retry_count + 1)
      = min config.ALARM_DELAY_ERROR_RETRY (1000 * 2 ^ (s.phase_retry_count + 1)) ∧
    (∀ k, config.ALARM_DELAY_ERROR_RETRY ≤ k →
      backoffDelay config k = config.ALARM_DELAY_ERROR_RETRY) := by
  refine ⟨?_, rfl, ?_⟩
  · have hnot : ¬ (s.phase_retry_count + 1 ≥ config.MAX_RETRY_ATTEMPTS) := by omega
    cases hst : s.status with
    | TIFF_CONVERSION =>
      simp [alarmEffects, hs, hst, phasesGet, hthrow, handleErrorEffects, hnot]
    | IMAGE_PROCESSING =>
      simp [alarmEffects, hs, hst, phasesGet, hthrow, handleErrorEffects, hnot]
    | DONE => exact absurd (Or.inr hst) hterm
    | ERROR => exact absurd (Or.inl hst) hterm
  · intro k hk
    unfold backoffDelay
    have h1 : config.ALARM_DELAY_ERROR_RETRY < 1000 * 2 ^ k := by
      calc config.ALARM_DELAY_ERROR_RETRY ≤ k := hk
        _ < 2 ^ k := Nat.lt_two_pow k
        _ ≤ 1000 * 2 ^ k := Nat.le_mul_of_pos_left _ (by norm_num)
    exact Nat.min_eq_left h1.le

/-- Witness for C6: the first failed tick of a fresh batch arms a
2000-millisecond backoff (`min(30000, 1000 * 2^1)`) after persisting the
counter. -/
theorem c6_witness :
    alarmEffects defaultConfig c6Oracle c6DO =
      [Effect.putState { sampleState with phase_retry_count := 1 },
       Effect.setAlarm (0 + backoffDelay defaultConfig 1)] ∧
    backoffDelay defaultConfig 1 = 2000 :=
  ⟨(c6_backoff_bound defaultConfig c6Oracle c6DO sampleState "boom" rfl
      (by decide) rfl (by decide)).1,
   by decide⟩

/-- C5: a failed tick that brings `phase_retry_count` to the configured
maximum clears the alarm and persists a terminal `ERROR` state whose message
carries the retry count and the triggering error; `ERROR` is terminal for
ticks and callbacks; with the default `MAX_RETRY_ATTEMPTS = 5`, five
consecutive throwing ticks drive a fresh batch to exactly that state. -/
theorem c5_retry_exhaustion_terminal :
    (∀ (config : Config) (o : Oracle) (d : DOState) (s : BatchState) (msg : String),
      d.stored = some s → ¬(s.status = .ERROR ∨ s.status = .DONE) →
      o.throws = some msg →
      s.phase_retry_count + 1 ≥ config.MAX_RETRY_ATTEMPTS →
      alarmEffects config o d =
        [Effect.deleteAlarm,
         Effect.putState { s with
           phase_retry_count := s.phase_retry_count + 1
           status := .ERROR
           error := some ("Failed after " ++ toString (s.phase_retry_count + 1)
             ++ " retries: " ++ msg) }] ∧
      (tickStep config o d).alarm = none ∧
      (tickStep config o d).stored = some { s with
           phase_retry_count := s.phase_retry_count + 1
           status := .ERROR
           error := some ("Failed after " ++ toString (s.phase_retry_count + 1)
             ++ " retries: " ++ msg) }) ∧
    (∀ (config : Config) (o : Oracle) (d : DOState) (s : BatchState),
      d.stored = some s → s.status = .ERROR →
      tickStep config o d = { d with alarm := none } ∧
      ∀ (tid : String) (res : CallbackResult),
        callbackStep config o tid res d = d) ∧
    (c5d4.stored.map (fun s => (s.status, s.phase_retry_count))
        = some (.TIFF_CONVERSION, 4) ∧
      c5d5.stored.map (fun s => (s.status, s.phase_retry_count, s.error))
        = some (.ERROR, 5, some "Failed after 5 retries: boom") ∧
      c5d5.alarm = none) := by
  refine ⟨?_, ?_, by decide⟩
  · intro config o d s msg hs hterm hthrow hge
    have h1 : alarmEffects config o d =
        [Effect.deleteAlarm,
         Effect.putState { s with
           phase_retry_count := s.phase_retry_count + 1
           status := .ERROR
           error := some ("Failed after " ++ toString (s.phase_retry_count + 1)
             ++ " retries: " ++ msg) }] := by
      cases hst : s.status with
      | TIFF_CONVERSION =>
        simp [alarmEffects, hs, hst, phasesGet, hthrow, handleErrorEffects, hge]
      | IMAGE_PROCESSING =>
        simp [alarmEffects, hs, hst, phasesGet, hthrow, handleErrorEffects, hge]
      | DONE => exact absurd (Or.inr hst) hterm
      | ERROR => exact absurd (Or.inl hst) hterm
    refine ⟨h1, ?_, ?_⟩ <;>
      · unfold tickStep
        rw [h1]
        rfl
  · intro config o d s hs herr
    constructor
    · have h1 : alarmEffects config o d = [Effect.deleteAlarm] := by
        simp [alarmEffects, hs, herr]
      unfold tickStep
      rw [h1]
      rfl
    · intro tid res
      have h1 : (callbackEffects config o tid res d).1 = [] := by
        cases hl : lookupAssoc s.current_phase_tasks tid with
        | none => simp [callbackEffects, hs, hl]
        | some task => simp [callbackEffects, hs, hl, herr, phasesGet]
      unfold callbackStep
      rw [h1]
      rfl

/-- Witness for C5: the fifth failure of `c5AlmostDO` (retry count 4) lands
in `ERROR` with no alarm, and `c5ErrDO` is terminal for a further tick and
callback. -/
theorem c5_witness :
    ((tickStep defaultConfig c6Oracle c5AlmostDO).alarm = none ∧
      (tickStep defaultConfig c6Oracle c5AlmostDO).stored = some { c5AlmostState with
        phase_retry_count := 5
        status := .ERROR
        error := some ("Failed after " ++ toString 5 ++ " retries: " ++ "boom") }) ∧
    (tickStep defaultConfig { now := 9 } c5ErrDO = { c5ErrDO with alarm := none } ∧
      callbackStep defaultConfig { now := 9 } "t" { status := "success" } c5ErrDO
        = c5ErrDO) :=
  ⟨⟨((c5_retry_exhaustion_terminal.1 defaultConfig c6Oracle c5AlmostDO c5AlmostState
        "boom" rfl (by decide) rfl (by decide)).2.1),
    ((c5_retry_exhaustion_terminal.1 defaultConfig c6Oracle c5AlmostDO c5AlmostState
        "boom" rfl (by decide) rfl (by decide)).2.2)⟩,
   ⟨(c5_retry_exhaustion_terminal.2.1 defaultConfig { now := 9 } c5ErrDO c5ErrState
        rfl rfl).1,
    (c5_retry_exhaustion_terminal.2.1 defaultConfig { now := 9 } c5ErrDO c5ErrState
        rfl rfl).2 "t" { status := "success" }⟩⟩

/-- C9 (amended): after a successful tick with more work remaining, the
re-armed alarm always uses `ALARM_DELAY_TIFF_CONVERSION`, whatever the
current phase is. -/
theorem c9_amended_alarm_delay (config : Config) (o : Oracle) (d : DOState)
    (s : BatchState) (ph : PhaseImpl) (hs : d.stored = some s)
    (hterm : ¬(s.status = .ERROR ∨ s.status = .DONE))
    (hph : phasesGet s.status = some ph) (hok : o.throws = none)
    (hmore : (ph.executeBatch s config o.execO).2 = true) :
    alarmEffects config o d =
      [Effect.putState { (ph.executeBatch s config o.execO).1 with
         updated_at := o.now, phase_retry_count := 0 },
       Effect.setAlarm (o.now + config.ALARM_DELAY_TIFF_CONVERSION)] ∧
    (tickStep config o d).alarm = some (o.now + config.ALARM_DELAY_TIFF_CONVERSION) := by
  have h1 : alarmEffects config o d =
      [Effect.putState { (ph.executeBatch s config o.execO).1 with
         updated_at := o.now, phase_retry_count := 0 },
       Effect.setAlarm (o.now + config.ALARM_DELAY_TIFF_CONVERSION)] := by
    simp [alarmEffects, hs, hterm, hph, hok, hmore]
  refine ⟨h1, ?_⟩
  unfold tickStep
  rw [h1]
  rfl

/-- Witness for C9's amended statement at a TIFF batch with one pending
task. -/
theorem c9_witness :
    (tickStep defaultConfig { now := 20 } c9TiffDO).alarm
      = some (20 + defaultConfig.ALARM_DELAY_TIFF_CONVERSION) :=
  (c9_amended_alarm_delay defaultConfig { now := 20 } c9TiffDO c9TiffState
    tiffPhase rfl (by decide) rfl rfl (by decide)).2

/-- C9 is false as claimed: a tick of an `IMAGE_PROCESSING` batch with work
remaining re-arms the alarm with the TIFF phase's delay (5000 ms here), not
`ALARM_DELAY_IMAGE_PROCESSING` (7000 ms in this configuration). -/
theorem c9_counterexample :
    c9DO.stored.map BatchState.status = some .IMAGE_PROCESSING ∧
    (imagePhase.executeBatch c9State c9Cfg (Oracle.execO c9Oracle)).2 = true ∧
    (tickStep c9Cfg c9Oracle c9DO).alarm
      = some (c9Oracle.now + c9Cfg.ALARM_DELAY_TIFF_CONVERSION) ∧
    c9Oracle.now + c9Cfg.ALARM_DELAY_TIFF_CONVERSION = 5100 ∧
    c9Oracle.now + c9Cfg.ALARM_DELAY_IMAGE_PROCESSING = 7100 ∧
    (tickStep c9Cfg c9Oracle c9DO).alarm
      ≠ some (c9Oracle.now + c9Cfg.ALARM_DELAY_IMAGE_PROCESSING) := by
  decide

/-- C2 fails on the code: along a reachable trace in which task `a` is
forced to `failed` by the timeout check and its success callback arrives
afterwards (each worker calling back exactly once per task), the final
counters read `tasks_completed = 2`, `tasks_failed = 1` against
`tasks_total = 2`, so `tasks_completed + tasks_failed ≤ tasks_total` is
violated: the callback handler applies a success result to a task that the
timeout path already counted as failed, without checking its status. -/
theorem c2_counter_invariant_violated :
    Reachable c2d6 ∧
    c2d6.stored.map (fun s => (s.tasks_completed, s.tasks_failed, s.tasks_total))
      = some (2, 1, 2) ∧
    ¬ (2 + 1 ≤ 2) := by
  refine ⟨?_, by decide, by decide⟩
  exact Reachable.callback c2Cfg { now := 64000 } "tiff_bb" c2CbB
    (Reachable.callback c2Cfg { now := 63000 } "tiff_a" c2CbA
      (Reachable.tick c2Cfg { now := 62000 }
        (Reachable.tick c2Cfg { now := 6000 }
          (Reachable.tick c2Cfg { now := 1000 }
            (Reachable.start { now := 0 } c2Qm Reachable.init)))))

/-- Core of C7 for the TIFF phase: a `false` return means every task of the
returned state is resolved. -/
theorem tiff_ret_false_all_done (s : BatchState) (config : Config) (o : ExecOracle)
    (h : (tiffExecuteBatch s config o).2 = false) :
    allTasksDone (tiffExecuteBatch s config o).1.current_phase_tasks = true := by
  unfold tiffExecuteBatch at *
  by_cases hp : (pendingSlice
      (tiffCheckTimeouts s config.TASK_TIMEOUT_TIFF_CONVERSION o.now).current_phase_tasks
      config.BATCH_SIZE_TIFF_CONVERSION).isEmpty
  · by_cases hd : allTasksDone
        (tiffCheckTimeouts s config.TASK_TIMEOUT_TIFF_CONVERSION o.now).current_phase_tasks
      = true
    · simp [hp, hd]
    · simp [hp, hd] at h
  · simp [hp] at h

/-- Core of C7 for the image phase. -/
theorem image_ret_false_all_done (s : BatchState) (config : Config) (o : ExecOracle)
    (h : (imageExecuteBatch s config o).2 = false) :
    allTasksDone (imageExecuteBatch s config o).1.current_phase_tasks = true := by
  unfold imageExecuteBatch at *
  by_cases hp : (pendingSlice s.current_phase_tasks
      config.BATCH_SIZE_IMAGE_PROCESSING).isEmpty
  · by_cases hd : allTasksDone s.current_phase_tasks = true
    · simp [hp, hd]
    · simp [hp, hd] at h
  · simp [hp] at h

theorem isResolved_of_allTasksDone {tasks : List (String × Task)}
    (h : allTasksDone tasks = true) {p : String × Task} (hp : p ∈ tasks) :
    p.2.status.isResolved = true :=
  List.all_eq_true.mp h p hp

/-- C7: for both phases, `executeBatch` returns `false` only when every task
of the resulting state is `completed` or `failed` (hence zero `pending`
tasks); whenever any task is left `pending` or `processing` it returns
`true`. -/
theorem c7_execute_batch_return (s : BatchState) (config : Config) (o : ExecOracle) :
    ((tiffExecuteBatch s config o).2 = false →
      allTasksDone (tiffExecuteBatch s config o).1.current_phase_tasks = true ∧
      ∀ p ∈ (tiffExecuteBatch s config o).1.current_phase_tasks,
        p.2.status.isPending = false) ∧
    (allTasksDone (tiffExecuteBatch s config o).1.current_phase_tasks = false →
      (tiffExecuteBatch s config o).2 = true) ∧
    ((imageExecuteBatch s config o).2 = false →
      allTasksDone (imageExecuteBatch s config o).1.current_phase_tasks = true ∧
      ∀ p ∈ (imageExecuteBatch s config o).1.current_phase_tasks,
        p.2.status.isPending = false) ∧
    (allTasksDone (imageExecuteBatch s config o).1.current_phase_tasks = false →
      (imageExecuteBatch s config o).2 = true) := by
  refine ⟨?_, ?_, ?_, ?_⟩
  · intro h
    have hall := tiff_ret_false_all_done s config o h
    exact ⟨hall, fun p hp =>
      isPending_false_of_isResolved (isResolved_of_allTasksDone hall hp)⟩
  · intro h
    cases hr : (tiffExecuteBatch s config o).2 with
    | false => rw [tiff_ret_false_all_done s config o hr] at h; cases h
    | true => rfl
  · intro h
    have hall := image_ret_false_all_done s config o h
    exact ⟨hall, fun p hp =>
      isPending_false_of_isResolved (isResolved_of_allTasksDone hall hp)⟩
  · intro h
    cases hr : (imageExecuteBatch s config o).2 with
    | false => rw [image_ret_false_all_done s config o hr] at h; cases h
    | true => rfl

/-- Witness for C7: on a taskless state both phases return `false` with all
(zero) tasks resolved. -/
theorem c7_witness :
    allTasksDone (tiffExecuteBatch sampleState defaultConfig
        (Oracle.execO { now := 1 })).1.current_phase_tasks = true ∧
    allTasksDone (imageExecuteBatch sampleState defaultConfig
        (Oracle.execO { now := 1 })).1.current_phase_tasks = true :=
  ⟨((c7_execute_batch_return sampleState defaultConfig
      (Oracle.execO { now := 1 })).1 (by decide)).1,
   ((c7_execute_batch_return sampleState defaultConfig
      (Oracle.execO { now := 1 })).2.2.1 (by decide)).1⟩

/-- C10 fails on the code: the TIFF phase's transform of a completed task
emits the original TIFF tagged `TiffConverter:source`, and running the same
phase's `discover` over that transform output creates a task for exactly
that tagged file (the TIFF discovery looks only at the file name). -/
theorem c10_counterexample :
    (tiffTransformFile c10File (some c10Task)).map
        (fun g => (g.preprocessor_tags, g.file_name))
      = [(["TiffConverter:source"], "a.tif"), (["TiffConverter"], "a.jpg")] ∧
    (tiffDiscover (tiffTransformFile c10File (some c10Task))).map
        (fun tk => tk.input_r2_key) = ["k1"] := by
  decide

/-- C10 (amended): the image phase never re-discovers its own tagged output
(a completed task's transform output has content type `application/json`,
failing the image predicate) and skips `TiffConverter:source`-tagged files;
the TIFF phase, however, filters by file name only, and its `discover` over
its own transform output does create a task — with the same deterministic
id — for the preserved original TIFF that the transform tagged
`TiffConverter:source`. -/
theorem c10_amended_discover_own_output :
    (∀ (f : ProcessableFile) (t : Task), imageProcessingApplied t = true →
      ∀ g ∈ imageTransformFile f (some t), imageWantsTask g = false) ∧
    (∀ f : ProcessableFile,
      f.preprocessor_tags.contains "TiffConverter:source" = true →
      imageWantsTask f = false) ∧
    (∀ (f : ProcessableFile) (t : Task), isTiff f.file_name = true →
      tiffConversionApplied t = true →
      ((tiffTransformFile f (some t)).head?.map
          (fun g => g.preprocessor_tags.contains "TiffConverter:source"))
        = some true ∧
      ((tiffDiscover (tiffTransformFile f (some t))).head?.map
          (fun tk => tk.input_r2_key)) = some f.r2_key) := by
  refine ⟨?_, ?_, ?_⟩
  · intro f t h g hg
    simp [imageTransformFile, h] at hg
    subst hg
    rfl
  · intro f h
    unfold imageWantsTask
    rw [h]
    simp
  · intro f t h1 h2
    constructor
    · have hm : "TiffConverter:source"
          ∈ f.preprocessor_tags ++ ["TiffConverter:source"] :=
        List.mem_append_right _ (List.mem_singleton.mpr rfl)
      simp [tiffTransformFile, h2, hm]
    · simp [tiffTransformFile, h2, tiffDiscover, h1, mkTiffTask]

/-- Witness for C10's amended statement at the concrete TIFF file and
completed task. -/
theorem c10_witness :
    ((tiffTransformFile c10File (some c10Task)).head?.map
        (fun g => g.preprocessor_tags.contains "TiffConverter:source"))
      = some true ∧
    ((tiffDiscover (tiffTransformFile c10File (some c10Task))).head?.map
        (fun tk => tk.input_r2_key)) = some c10File.r2_key :=
  c10_amended_discover_own_output.2.2 c10File c10Task (by decide) (by decide)

/-- A task that is not `pending` passes through the dispatch loop unchanged
(membership form). -/
theorem mem_dispatch_of_not_pending (o : ExecOracle) (cap : Nat)
    {l : List (String × Task)} {k : String} {t : Task}
    (hnd : (l.map Prod.fst).Nodup) (hmem : (k, t) ∈ l)
    (hnp : t.status.isPending = false) :
    (k, t) ∈ dispatchPending o (pendingSlice l cap) l := by
  unfold dispatchPending
  have hfix := dispatchFix_of_not_pending cap hnd hmem hnp o
  have := List.mem_map_of_mem (dispatchFix o (pendingSlice l cap)) hmem
  rw [hfix] at this
  exact this

/-- The `tiffCheckTimeouts` keeps the key column. -/
theorem tiffCheckTimeouts_keys (s : BatchState) (timeoutMs now : Nat) :
    (tiffCheckTimeouts s timeoutMs now).current_phase_tasks.map Prod.fst
      = s.current_phase_tasks.map Prod.fst := by
  have h := map_fst_of_keyfix
    (f := fun p => (p.1, tiffTimeoutFix timeoutMs now p.2))
    (fun p => rfl) s.current_phase_tasks
  exact h

/-- The `tiffExecuteBatch` never changes the failure counter after the timeout
reconciliation. -/
theorem tiff_exec_failed_count (s : BatchState) (config : Config) (o : ExecOracle) :
    (tiffExecuteBatch s config o).1.tasks_failed
      = (tiffCheckTimeouts s config.TASK_TIMEOUT_TIFF_CONVERSION o.now).tasks_failed := by
  unfold tiffExecuteBatch
  dsimp only
  split
  · split <;> rfl
  · rfl

/-- Membership in the reconciled task list of `tiffCheckTimeouts`. -/
theorem tiffCheckTimeouts_mem (s : BatchState) (timeoutMs now : Nat)
    {k : String} {t : Task} (hmem : (k, t) ∈ s.current_phase_tasks) :
    (k, tiffTimeoutFix timeoutMs now t)
      ∈ (tiffCheckTimeouts s timeoutMs now).current_phase_tasks := by
  unfold tiffCheckTimeouts
  exact List.mem_map_of_mem (fun p => (p.1, tiffTimeoutFix timeoutMs now p.2)) hmem

/-- Membership in the final task list of `tiffExecuteBatch`: a task whose
reconciled form is not `pending` survives as its reconciled form. -/
theorem tiff_exec_mem (s : BatchState) (config : Config) (o : ExecOracle)
    {k : String} {t : Task} (hnd : taskKeysNodup s)
    (hmem : (k, t) ∈ s.current_phase_tasks)
    (hnp : (tiffTimeoutFix config.TASK_TIMEOUT_TIFF_CONVERSION o.now t).status.isPending
      = false) :
    (k, tiffTimeoutFix config.TASK_TIMEOUT_TIFF_CONVERSION o.now t)
      ∈ (tiffExecuteBatch s config o).1.current_phase_tasks := by
  have hm1 := tiffCheckTimeouts_mem s config.TASK_TIMEOUT_TIFF_CONVERSION o.now hmem
  have hnd1 : ((tiffCheckTimeouts s config.TASK_TIMEOUT_TIFF_CONVERSION
      o.now).current_phase_tasks.map Prod.fst).Nodup := by
    rw [tiffCheckTimeouts_keys]
    exact hnd
  unfold tiffExecuteBatch
  by_cases hp : (pendingSlice
      (tiffCheckTimeouts s config.TASK_TIMEOUT_TIFF_CONVERSION o.now).current_phase_tasks
      config.BATCH_SIZE_TIFF_CONVERSION).isEmpty
  · by_cases hd : allTasksDone
        (tiffCheckTimeouts s config.TASK_TIMEOUT_TIFF_CONVERSION o.now).current_phase_tasks
      = true
    · simpa [hp, hd] using hm1
    · simpa [hp, hd] using hm1
  · simp only [hp, Bool.false_eq_true, if_false, ite_false]
    simpa [hp] using mem_dispatch_of_not_pending o config.BATCH_SIZE_TIFF_CONVERSION
      hnd1 hm1 hnp

/-- C3 fails on the code for the image phase: on an `executeBatch` invocation
that selects pending work, an overdue `processing` task (here `"p2"`, started
at 0 with the tick at 10000000 against a 120000 ms timeout) is NOT marked
failed in that same invocation — it stays `processing` and `tasks_failed`
stays 0, because `ImageProcessingPhase.executeBatch` only checks timeouts
when no pending task was selected. -/
theorem c3_counterexample :
    overdue c3Oracle.now defaultConfig.TASK_TIMEOUT_IMAGE_PROCESSING c3Task2 = true ∧
    ((lookupAssoc (imageExecuteBatch c3State defaultConfig
        (Oracle.execO c3Oracle)).1.current_phase_tasks "p2").map Task.status)
      = some .processing ∧
    (imageExecuteBatch c3State defaultConfig
      (Oracle.execO c3Oracle)).1.tasks_failed = 0 := by
  decide

/-- C3 (amended): the TIFF phase reconciles timeouts at the start of every
`executeBatch` — every overdue `processing` task is failed with a timeout
error in the same invocation and counted exactly once (already-`failed`
tasks survive untouched and are never re-counted) — while the image phase
checks timeouts only on invocations that select no pending task: a tick
that dispatches pending work leaves an overdue `processing` task untouched
and counts nothing; an idle, incomplete tick fails and counts the overdue
tasks like the TIFF phase does. -/
theorem c3_amended_timeout_reconciliation :
    (∀ (s : BatchState) (config : Config) (o : ExecOracle) (k : String) (t : Task),
      taskKeysNodup s → (k, t) ∈ s.current_phase_tasks →
      overdue o.now config.TASK_TIMEOUT_TIFF_CONVERSION t = true →
      (k, tiffFailTimedOut o.now config.TASK_TIMEOUT_TIFF_CONVERSION t)
        ∈ (tiffExecuteBatch s config o).1.current_phase_tasks ∧
      (tiffFailTimedOut o.now config.TASK_TIMEOUT_TIFF_CONVERSION t).status = .failed ∧
      (tiffFailTimedOut o.now config.TASK_TIMEOUT_TIFF_CONVERSION t).error.isSome
        = true) ∧
    (∀ (s : BatchState) (config : Config) (o : ExecOracle),
      (tiffExecuteBatch s config o).1.tasks_failed = s.tasks_failed +
        (s.current_phase_tasks.filter
          (fun p => overdue o.now config.TASK_TIMEOUT_TIFF_CONVERSION p.2)).length) ∧
    (∀ (s : BatchState) (config : Config) (o : ExecOracle) (k : String) (t : Task),
      taskKeysNodup s → (k, t) ∈ s.current_phase_tasks → t.status = .failed →
      (k, t) ∈ (tiffExecuteBatch s config o).1.current_phase_tasks) ∧
    (∀ (s : BatchState) (config : Config) (o : ExecOracle) (k : String) (t : Task),
      (pendingSlice s.current_phase_tasks config.BATCH_SIZE_IMAGE_PROCESSING).isEmpty
        = false →
      taskKeysNodup s → (k, t) ∈ s.current_phase_tasks → t.status = .processing →
      (k, t) ∈ (imageExecuteBatch s config o).1.current_phase_tasks ∧
      (imageExecuteBatch s config o).1.tasks_failed = s.tasks_failed) ∧
    (∀ (s : BatchState) (config : Config) (o : ExecOracle) (k : String) (t : Task),
      (pendingSlice s.current_phase_tasks config.BATCH_SIZE_IMAGE_PROCESSING).isEmpty
        = true →
      allTasksDone s.current_phase_tasks = false →
      (k, t) ∈ s.current_phase_tasks →
      overdue o.now config.TASK_TIMEOUT_IMAGE_PROCESSING t = true →
      (k, imageFailTimedOut o.now t)
        ∈ (imageExecuteBatch s config o).1.current_phase_tasks ∧
      (imageExecuteBatch s config o).1.tasks_failed = s.tasks_failed +
        (s.current_phase_tasks.filter
          (fun p => overdue o.now config.TASK_TIMEOUT_IMAGE_PROCESSING p.2)).length) := by
  refine ⟨?_, ?_, ?_, ?_, ?_⟩
  · intro s config o k t hnd hmem hov
    have hfix : tiffTimeoutFix config.TASK_TIMEOUT_TIFF_CONVERSION o.now t
        = tiffFailTimedOut o.now config.TASK_TIMEOUT_TIFF_CONVERSION t := by
      unfold tiffTimeoutFix
      rw [hov]
      rfl
    refine ⟨?_, rfl, rfl⟩
    have := tiff_exec_mem s config o hnd hmem (by rw [hfix]; rfl)
    rw [hfix] at this
    exact this
  · intro s config o
    rw [tiff_exec_failed_count]
    rfl
  · intro s config o k t hnd hmem hfail
    have hfix : tiffTimeoutFix config.TASK_TIMEOUT_TIFF_CONVERSION o.now t = t := by
      unfold tiffTimeoutFix
      rw [overdue_false_of_not_processing (by rw [hfail]; rfl) o.now
        config.TASK_TIMEOUT_TIFF_CONVERSION]
      rfl
    have := tiff_exec_mem s config o hnd hmem (by rw [hfix, hfail]; rfl)
    rw [hfix] at this
    exact this
  · intro s config o k t hp hnd hmem hproc
    constructor
    · unfold imageExecuteBatch
      simp only [hp, Bool.false_eq_true, if_false, ite_false]
      simpa [hp] using mem_dispatch_of_not_pending o config.BATCH_SIZE_IMAGE_PROCESSING
        hnd hmem (by rw [hproc]; rfl)
    · unfold imageExecuteBatch
      simp [hp]
  · intro s config o k t hp hd hmem hov
    have hfix : imageTimeoutFix config.TASK_TIMEOUT_IMAGE_PROCESSING o.now t
        = imageFailTimedOut o.now t := by
      unfold imageTimeoutFix
      rw [hov]
      rfl
    constructor
    · unfold imageExecuteBatch
      simp only [hp, if_true, hd, Bool.false_eq_true, if_false, ite_false, ite_true]
      rw [← hfix]
      unfold imageCheckTimeouts
      simpa [hp, hd] using List.mem_map_of_mem
        (fun p => (p.1, imageTimeoutFix config.TASK_TIMEOUT_IMAGE_PROCESSING o.now p.2))
        hmem
    · unfold imageExecuteBatch
      simp [hp, hd, imageCheckTimeouts]

/-- Witness for C3's amended statement: a single overdue TIFF task is failed
and counted by its tick, and the concrete image state `c3State` (one pending,
one overdue processing task) keeps its overdue task untouched on a
dispatching tick. -/
theorem c3_witness :
    ((("q1", tiffFailTimedOut 10000000 defaultConfig.TASK_TIMEOUT_TIFF_CONVERSION
        { task_id := "q1", status := .processing, started_at := some 0
          input_r2_key := "qk", input_file_name := "qk.tif" })
      ∈ (tiffExecuteBatch c3TiffState defaultConfig
          (Oracle.execO c3Oracle)).1.current_phase_tasks) ∧
      (tiffExecuteBatch c3TiffState defaultConfig
        (Oracle.execO c3Oracle)).1.tasks_failed = c3TiffState.tasks_failed + 1) ∧
    (("p2", c3Task2) ∈ (imageExecuteBatch c3State defaultConfig
        (Oracle.execO c3Oracle)).1.current_phase_tasks ∧
      (imageExecuteBatch c3State defaultConfig
        (Oracle.execO c3Oracle)).1.tasks_failed = c3State.tasks_failed) :=
  ⟨⟨(c3_amended_timeout_reconciliation.1 c3TiffState defaultConfig
      (Oracle.execO c3Oracle) "q1" _ (by unfold taskKeysNodup; decide) (by decide)
      (by decide)).1,
    by
      rw [c3_amended_timeout_reconciliation.2.1 c3TiffState defaultConfig
        (Oracle.execO c3Oracle)]
      decide⟩,
   c3_amended_timeout_reconciliation.2.2.2.1 c3State defaultConfig
     (Oracle.execO c3Oracle) "p2" c3Task2 (by decide)
     (by unfold taskKeysNodup; decide) (by decide) (by decide)⟩

/-! ## Safety of the status invariant (for C1) -/

theorem effectsSafe_nil : effectsSafe [] := by
  intro s h
  cases h

theorem effectsSafe_cons_put {s : BatchState} {es : List Effect}
    (h1 : statusSafe s.status) (h2 : effectsSafe es) :
    effectsSafe (Effect.putState s :: es) := by
  intro s' h'
  rcases List.mem_cons.mp h' with h' | h'
  · cases h'
    exact h1
  · exact h2 s' h'

theorem effectsSafe_cons_other {e : Effect} {es : List Effect}
    (he : ∀ s, e ≠ Effect.putState s) (h : effectsSafe es) :
    effectsSafe (e :: es) := by
  intro s' h'
  rcases List.mem_cons.mp h' with h' | h'
  · exact absurd h'.symm (he s')
  · exact h s' h'

theorem effectsSafe_append {es fs : List Effect}
    (h1 : effectsSafe es) (h2 : effectsSafe fs) : effectsSafe (es ++ fs) := by
  intro s h
  rcases List.mem_append.mp h with h | h
  · exact h1 s h
  · exact h2 s h

theorem storedSafe_apply {d : DOState} {es : List Effect}
    (hd : storedSafe d) (he : effectsSafe es) : storedSafe (applyEffects d es) := by
  induction es generalizing d with
  | nil => exact hd
  | cons e tl ih =>
    have h1 : storedSafe (applyEffect d e) := by
      cases e with
      | putState s =>
        intro s' h'
        cases h'
        exact he _ (List.mem_cons_self ..)
      | setAlarm t => exact hd
      | deleteAlarm => exact hd
      | deliver fs => exact hd
    exact ih h1 (fun s hs => he s (List.mem_cons_of_mem _ hs))

theorem effectsSafe_finalize (o : Oracle) (s : BatchState) :
    effectsSafe (finalizeEffects o s) := by
  unfold finalizeEffects
  refine effectsSafe_append (effectsSafe_cons_put (Or.inr (Or.inl rfl))
    (effectsSafe_cons_other (fun s' h => by cases h) effectsSafe_nil)) ?_
  by_cases h : o.deliverOk
  · simp only [h, if_true, ite_true]
    exact effectsSafe_nil
  · simp only [h, if_false, ite_false]
    exact effectsSafe_cons_other (fun s' hh => by cases hh)
      (effectsSafe_cons_put (Or.inr (Or.inr rfl)) effectsSafe_nil)

theorem effectsSafe_transition (o : Oracle) (fuel : Nat) (ph : PhaseImpl)
    (s : BatchState) (hph : ph.getNextPhase = none) :
    effectsSafe (transitionEffects o fuel ph s) := by
  cases fuel with
  | zero => exact effectsSafe_nil
  | succ n =>
    unfold transitionEffects
    rw [hph]
    exact effectsSafe_finalize o _

theorem effectsSafe_handleError (config : Config) (o : Oracle) (s : BatchState)
    (msg : String) (hstat : statusSafe s.status) :
    effectsSafe (handleErrorEffects config o s msg) := by
  unfold handleErrorEffects
  by_cases h : s.phase_retry_count + 1 ≥ config.MAX_RETRY_ATTEMPTS
  · simp only [h, if_true, ite_true]
    exact effectsSafe_cons_other (fun s' hh => by cases hh)
      (effectsSafe_cons_put (Or.inr (Or.inr rfl)) effectsSafe_nil)
  · simp only [h, if_false, ite_false]
    exact effectsSafe_cons_put hstat
      (effectsSafe_cons_other (fun s' hh => by cases hh) effectsSafe_nil)

/-- Neither timeout reconciliation nor dispatch touches the status field. -/
theorem tiffExecuteBatch_status (s : BatchState) (config : Config) (o : ExecOracle) :
    (tiffExecuteBatch s config o).1.status = s.status := by
  unfold tiffExecuteBatch
  dsimp only
  split
  · split <;> rfl
  · rfl

/-- The alarm handler of a stored `TIFF_CONVERSION` batch, unfolded. -/
theorem alarmEffects_tiff (config : Config) (o : Oracle) (d : DOState)
    (s : BatchState) (hst : d.stored = some s)
    (h : s.status = .TIFF_CONVERSION) :
    alarmEffects config o d =
      match o.throws with
      | some msg => handleErrorEffects config o s msg
      | none =>
        Effect.putState { (tiffExecuteBatch s config o.execO).1 with
          updated_at := o.now, phase_retry_count := 0 } ::
          (if (tiffExecuteBatch s config o.execO).2 then
            [Effect.setAlarm (o.now + config.ALARM_DELAY_TIFF_CONVERSION)]
           else transitionEffects o phaseFuel tiffPhase
             { (tiffExecuteBatch s config o.execO).1 with
               updated_at := o.now, phase_retry_count := 0 }) := by
  cases ht : o.throws with
  | some msg => simp [alarmEffects, hst, h, phasesGet, ht]
  | none => simp [alarmEffects, hst, h, phasesGet, ht, tiffPhase]

theorem effectsSafe_alarm (config : Config) (o : Oracle) (d : DOState)
    (hd : storedSafe d) : effectsSafe (alarmEffects config o d) := by
  cases hst : d.stored with
  | none =>
    have h : alarmEffects config o d = [] := by
      simp [alarmEffects, hst]
    rw [h]
    exact effectsSafe_nil
  | some s =>
    rcases hd s hst with h | h | h
    · rw [alarmEffects_tiff config o d s hst h]
      cases ht : o.throws with
      | some msg => exact effectsSafe_handleError config o s msg (Or.inl h)
      | none =>
        refine effectsSafe_cons_put ?_ ?_
        · have hstat : ({ (tiffExecuteBatch s config o.execO).1 with
              updated_at := o.now, phase_retry_count := 0 } : BatchState).status
            = s.status := tiffExecuteBatch_status s config o.execO
          rw [hstat, h]
          exact Or.inl rfl
        · by_cases hb : (tiffExecuteBatch s config o.execO).2
          · simp only [hb, if_true, ite_true]
            exact effectsSafe_cons_other (fun s' hh => by cases hh) effectsSafe_nil
          · simp only [hb, if_false, ite_false]
            exact effectsSafe_transition o phaseFuel tiffPhase _ rfl
    · have h1 : alarmEffects config o d = [Effect.deleteAlarm] := by
        simp [alarmEffects, hst, h]
      rw [h1]
      exact effectsSafe_cons_other (fun s' hh => by cases hh) effectsSafe_nil
    · have h1 : alarmEffects config o d = [Effect.deleteAlarm] := by
        simp [alarmEffects, hst, h]
      rw [h1]
      exact effectsSafe_cons_other (fun s' hh => by cases hh) effectsSafe_nil

/-- The fresh-start effect list of `startBatch`, lifted for reuse. -/
theorem startBatchEffects_fresh (o : Oracle) (qm : QueueMessage) :
    effectsSafe (startBatchEffects.startFresh o qm) := by
  unfold startBatchEffects.startFresh
  refine effectsSafe_cons_put (Or.inl rfl) ?_
  by_cases h : (tiffDiscover (initialFilesOf qm)).isEmpty
  · simp only [h, if_true, ite_true]
    exact effectsSafe_finalize o _
  · simp only [h, if_false, ite_false]
    exact effectsSafe_cons_other (fun s' hh => by cases hh) effectsSafe_nil

theorem effectsSafe_start (o : Oracle) (qm : QueueMessage) (d : DOState) :
    effectsSafe (startBatchEffects o qm d) := by
  cases hst : d.stored with
  | none =>
    have h : startBatchEffects o qm d = startBatchEffects.startFresh o qm := by
      unfold startBatchEffects
      rw [hst]
    rw [h]
    exact startBatchEffects_fresh o qm
  | some s =>
    by_cases h : s.status = .ERROR
    · have h1 : startBatchEffects o qm d = startBatchEffects.startFresh o qm := by
        unfold startBatchEffects
        rw [hst]
        simp [h]
      rw [h1]
      exact startBatchEffects_fresh o qm
    · have h1 : startBatchEffects o qm d = [] := by
        unfold startBatchEffects
        rw [hst]
        simp [h]
      rw [h1]
      exact effectsSafe_nil

theorem effectsSafe_callback (config : Config) (o : Oracle) (tid : String)
    (res : CallbackResult) (d : DOState) (hd : storedSafe d) :
    effectsSafe (callbackEffects config o tid res d).1 := by
  cases hst : d.stored with
  | none =>
    have h : (callbackEffects config o tid res d).1 = [] := by
      simp [callbackEffects, hst]
    rw [h]
    exact effectsSafe_nil
  | some s =>
    cases hl : lookupAssoc s.current_phase_tasks tid with
    | none =>
      have h : (callbackEffects config o tid res d).1 = [] := by
        simp [callbackEffects, hst, hl]
      rw [h]
      exact effectsSafe_nil
    | some task =>
      rcases hd s hst with h | h | h
      · have hc : (callbackEffects config o tid res d).1 =
            Effect.putState { s with
              current_phase_tasks := updateAssoc s.current_phase_tasks tid
                (tiffHandleCallback task res o.now).1
              tasks_completed := s.tasks_completed +
                (if (tiffHandleCallback task res o.now).2 = .completed then 1 else 0)
              tasks_failed := s.tasks_failed +
                (if (tiffHandleCallback task res o.now).2 = .failed then 1 else 0)
              updated_at := o.now } ::
            (if allTasksDone (updateAssoc s.current_phase_tasks tid
                (tiffHandleCallback task res o.now).1) then
              transitionEffects o phaseFuel tiffPhase { s with
                current_phase_tasks := updateAssoc s.current_phase_tasks tid
                  (tiffHandleCallback task res o.now).1
                tasks_completed := s.tasks_completed +
                  (if (tiffHandleCallback task res o.now).2 = .completed then 1 else 0)
                tasks_failed := s.tasks_failed +
                  (if (tiffHandleCallback task res o.now).2 = .failed then 1 else 0)
                updated_at := o.now }
             else []) := by
          simp [callbackEffects, hst, hl, h, phasesGet, tiffPhase]
        rw [hc]
        refine effectsSafe_cons_put ?_ ?_
        · rw [show ({ s with
              current_phase_tasks := updateAssoc s.current_phase_tasks tid
                (tiffHandleCallback task res o.now).1
              tasks_completed := s.tasks_completed +
                (if (tiffHandleCallback task res o.now).2 = .completed then 1 else 0)
              tasks_failed := s.tasks_failed +
                (if (tiffHandleCallback task res o.now).2 = .failed then 1 else 0)
              updated_at := o.now } : BatchState).status = s.status from rfl, h]
          exact Or.inl rfl
        · by_cases hb : allTasksDone (updateAssoc s.current_phase_tasks tid
              (tiffHandleCallback task res o.now).1)
          · simp only [hb, if_true, ite_true]
            exact effectsSafe_transition o phaseFuel tiffPhase _ rfl
          · simp only [hb, if_false, ite_false]
            exact effectsSafe_nil
      · have hc : (callbackEffects config o tid res d).1 = [] := by
          simp [callbackEffects, hst, hl, h, phasesGet]
        rw [hc]
        exact effectsSafe_nil
      · have hc : (callbackEffects config o tid res d).1 = [] := by
          simp [callbackEffects, hst, hl, h, phasesGet]
        rw [hc]
        exact effectsSafe_nil

/-- C1: along every reachable execution the stored status is never
`IMAGE_PROCESSING` — `TiffConversionPhase.getNextPhase()` returns `null`, so
a batch started in `TIFF_CONVERSION` only ever finalizes to `DONE` or
`ERROR`, and no tick or callback ever resolves the registered
`ImageProcessingPhase` as the current phase. -/
theorem c1_image_processing_unreachable {d : DOState} (h : Reachable d) :
    ∀ s, d.stored = some s →
      s.status ≠ .IMAGE_PROCESSING ∧ phasesGet s.status ≠ some imagePhase := by
  have hsafe : storedSafe d := by
    induction h with
    | init =>
      intro s hs
      cases hs
    | start o qm hr ih => exact storedSafe_apply ih (effectsSafe_start o qm _)
    | tick config o hr ih =>
      exact storedSafe_apply ih (effectsSafe_alarm config o _ ih)
    | callback config o tid res hr ih =>
      exact storedSafe_apply ih (effectsSafe_callback config o tid res _ ih)
  intro s hs
  rcases hsafe s hs with h1 | h1 | h1 <;> rw [h1]
  · refine ⟨by decide, ?_⟩
    intro hcon
    have h2 : tiffPhase = imagePhase := by
      simpa [phasesGet] using hcon
    have h3 := congrArg PhaseImpl.name h2
    simp [tiffPhase, imagePhase] at h3
  · exact ⟨by decide, by simp [phasesGet]⟩
  · exact ⟨by decide, by simp [phasesGet]⟩

/-- Witness for C1 at the storage reached by one concrete start. -/
theorem c1_witness :
    c1State.status ≠ .IMAGE_PROCESSING ∧ phasesGet c1State.status ≠ some imagePhase :=
  c1_image_processing_unreachable
    (Reachable.start { now := 0 } sampleQm Reachable.init) c1State (by rfl)

end Arke
